import Mathlib

/-!
Verification development for the taxi chat-backend (Python, `app/`).

Shallow embedding conventions:
* An utterance is modelled as the lowercased, whitespace-split token list
  produced by `text.lower().strip().split()`; the type `Text` below is that
  token list.  Tokens are assumed to be plain words (letters, digits, an
  inner apostrophe), so a regex whole-word search `\bw\b` on the joined
  string corresponds to membership of the word (or of the consecutive word
  sequence, for multi-word phrases) in the token list, and Python substring
  containment `p in text` corresponds to `p` being an infix of the tokens
  joined by single spaces.
* Python `float` confidences are modelled as `ℚ`; the thresholds 0.70,
  0.65, 0.60, 0.50 become the rationals 7/10, 13/20, 3/5, 1/2.
* Fallible external calls (the LLM transport, the graph repository) are
  modelled as `Except Unit _` parameters: `.error ()` stands for any raised
  exception, `.ok v` for a completed call whose relevant outcome is `v`.
* Python truthiness of an optional string (`if s:`) is `optTruthy` below:
  false for `None` and for the empty string.
-/

namespace TaxiBackend

/-- Lowercased whitespace-split utterance: the token list of the text. -/
abbrev Text := List String

/-- `str.lower()` restricted to ASCII case mapping (all patterns compared
against are ASCII). -/
def pyLower (s : String) : String := String.mk (s.toList.map Char.toLower)

/-- `str.capitalize()`: first character uppercased, the rest lowercased. -/
def pyCapitalize (s : String) : String :=
  match s.toList with
  | [] => ""
  | c :: cs => String.mk (Char.toUpper c :: cs.map Char.toLower)

/-- The characters of the tokens joined by single spaces — the string the
Python code runs substring tests against. -/
def joinedChars (t : Text) : List Char := (String.intercalate " " t).toList

/-- Python substring containment `pat in text_lower`. -/
def containsSubstr (t : Text) (pat : String) : Bool :=
  decide (pat.toList <:+: joinedChars t)

/-- Whole-word (multi-word) phrase search `re.search(r"\b…\b", text_lower)`:
the phrase's tokens occur consecutively in the utterance's tokens. -/
def containsPhrase (t : Text) (phrase : List String) : Bool :=
  decide (phrase <:+: t)

/-- Python truthiness of an optional string. -/
def optTruthy : Option String → Bool
  | none => false
  | some s => !(s == "")

/-- `int(tok)` on an all-digit token (`\d+`): `some` of its decimal value
exactly when the token is a non-empty digit string. -/
def parseNatDigits (s : String) : Option Nat :=
  let cs := s.toList
  if cs ≠ [] ∧ cs.all (fun c => c.isDigit) then
    some (cs.foldl (fun acc c => acc * 10 + (c.toNat - 48)) 0)
  else none

/-- `str.strip()`: drop whitespace from both ends. -/
def pyStrip (s : String) : String :=
  String.mk (((s.toList.dropWhile Char.isWhitespace).reverse.dropWhile
    Char.isWhitespace).reverse)

-- =========================================================================
-- app/utils/text.py
-- =========================================================================

/-- `SIMPLE_CONFIRMATIONS` from `app/utils/text.py`, each entry split into
its word tokens. -/
def SIMPLE_CONFIRMATIONS : List (List String) :=
  [["ok"], ["okay"], ["sì"], ["si"], ["va", "bene"], ["perfetto"], ["grazie"],
   ["d\x27accordo"], ["capito"], ["certo"], ["esatto"], ["giusto"],
   ["benissimo"], ["ottimo"], ["fantastico"], ["eccellente"]]

/-- `SIMPLE_REJECTIONS` from `app/utils/text.py`. -/
def SIMPLE_REJECTIONS : List (List String) :=
  [["no"], ["no", "grazie"], ["niente"], ["lascia", "stare"], ["annulla"],
   ["non", "importa"], ["non", "serve"], ["lascia", "perdere"], ["basta", "così"]]

/-- Action-verb veto list (`action_indicators` in `analyze_text`). -/
def action_indicators : List String :=
  ["metti", "ferma", "cambia", "vai", "portami", "voglio", "cerco", "trova"]

/-- The pattern `\bno\b(?!\s+grazie)`: a token "no" whose successor token
does not start with "grazie" (the regex lookahead only requires "grazie" as
a prefix of what follows the whitespace). -/
def noWithoutGrazie : Text → Bool
  | [] => false
  | "no" :: rest =>
    match rest with
    | next :: _ =>
      if "grazie".toList <+: next.toList then noWithoutGrazie rest else true
    | [] => true
  | _ :: rest => noWithoutGrazie rest

/-- `_detect_negation` over `NEGATION_PATTERNS`: `\bnon\s+` and
`\bniente\s+` and `\bsenza\s+` need a following whitespace, hence a
non-final token; `\bno\b(?!\s+grazie)` is `noWithoutGrazie`; `\bmai\b` and
`\bnon\b` are plain token membership. -/
def _detect_negation (t : Text) : Bool :=
  t.dropLast.contains "non" || t.dropLast.contains "niente" ||
  noWithoutGrazie t || t.contains "mai" ||
  t.dropLast.contains "senza" || t.contains "non"

/-- Result of `analyze_text` (the `cleaned_text` field is punctuation
normalisation of the original-case text, untouched by every claim, and is
not carried in the embedding). -/
structure TextAnalysis where
  has_negation : Bool
  is_simple_confirmation : Bool
  is_simple_rejection : Bool
  deriving DecidableEq, Repr

/-- `analyze_text` from `app/utils/text.py`: negation detection, then the
simple-confirmation flag (≤ 3 tokens, no negation, a whole-word
confirmation match) with the action-verb veto applied afterwards, then the
simple-rejection flag (≤ 5 tokens, a whole-word rejection match). -/
def analyze_text (t : Text) : TextAnalysis :=
  let has_negation := _detect_negation t
  let conf0 := decide (t.length ≤ 3) && !has_negation &&
    SIMPLE_CONFIRMATIONS.any (fun conf => containsPhrase t conf)
  let is_simple_confirmation :=
    conf0 && !(action_indicators.any (fun action => containsSubstr t action))
  let is_simple_rejection := decide (t.length ≤ 5) &&
    SIMPLE_REJECTIONS.any (fun rej => containsPhrase t rej)
  ⟨has_negation, is_simple_confirmation, is_simple_rejection⟩

-- =========================================================================
-- app/llm/intent_classifier.py — result types and sanitizers
-- =========================================================================

/-- `ClassifyResult` dataclass. -/
structure ClassifyResult where
  need : Option String
  confidence : ℚ
  subcategory : Option String
  deriving DecidableEq, Repr

/-- `MatchResult` dataclass (`action` is one of "select", "cancel",
"unclear"). -/
structure MatchResult where
  selected_id : Option String
  action : String
  deriving DecidableEq, Repr

/-- `ToolClassifyResult` dataclass; `params` models the extracted JSON
parameter object as an association list (absent = `None`). -/
structure ToolClassifyResult where
  tool_id : Option String
  params : Option (List (String × String))
  confidence : ℚ
  deriving DecidableEq, Repr

/-- `ToolClassifyResult.none()`. -/
def ToolClassifyResult.noneResult : ToolClassifyResult := ⟨none, none, 0⟩

/-- `valid_needs` of `_clean_need_value`.  The source stores them in a
Python `set`, whose iteration order is unspecified; the list keeps the
written order, and no settled property depends on the order. -/
def valid_needs : List String := ["Fame", "Sete", "Malessere", "Divertimento", "Shopping"]

/-- Case-insensitive substring containment `valid.lower() in need.lower()`. -/
def containsCI (hay pat : String) : Bool :=
  decide ((pyLower pat).toList <:+: (pyLower hay).toList)

/-- `IntentClassifier._clean_need_value`: exact allow-list membership,
then case-insensitive substring extraction, then the first pipe-delimited
segment (exactly or by substring), else `None`. -/
def _clean_need_value (need : String) : Option String :=
  if need ∈ valid_needs then some need
  else match valid_needs.find? (fun valid => containsCI need valid) with
  | some valid => some valid
  | none =>
    if need.toList.contains '|' then
      let first := pyStrip ((need.split (fun c => c == '|')).headD "")
      if first ∈ valid_needs then some first
      else match valid_needs.find? (fun valid => containsCI first valid) with
      | some valid => some valid
      | none => none
    else none

/-- `valid_subcategories` of `_clean_subcategory_value` (again a Python
set, kept in written order). -/
def valid_subcategories : List String := ["colazione", "pranzo", "cena", "spuntino"]

/-- `IntentClassifier._clean_subcategory_value`. -/
def _clean_subcategory_value (subcategory : String) : Option String :=
  if pyLower subcategory ∈ valid_subcategories then some (pyLower subcategory)
  else
    let fromPipe :=
      if subcategory.toList.contains '|' then
        (subcategory.split (fun c => c == '|')).find?
          (fun part => pyLower (pyStrip part) ∈ valid_subcategories)
          |>.map (fun part => pyLower (pyStrip part))
      else none
    match fromPipe with
    | some part => some part
    | none => valid_subcategories.find? (fun valid => containsCI subcategory valid)

-- =========================================================================
-- app/llm/intent_classifier.py — match_option deterministic pre-checks
-- =========================================================================

/-- One entry of the `options` list (`{id, label}` dicts); a dict missing
the `id` key is modelled by `id = ""` (both are falsy at the only place the
id is inspected). -/
structure OptionItem where
  id : String
  label : String
  deriving DecidableEq, Repr

/-- `ordinal_map` of `_extract_option_index`, in insertion order. -/
def ordinal_map : List (String × Nat) :=
  [("primo", 1), ("prima", 1), ("secondo", 2), ("seconda", 2),
   ("terzo", 3), ("terza", 3), ("quarto", 4), ("quarta", 4),
   ("quinto", 5), ("quinta", 5), ("sesto", 6), ("sesta", 6),
   ("settimo", 7), ("settima", 7), ("ottavo", 8), ("ottava", 8),
   ("nono", 9), ("nona", 9), ("decimo", 10), ("decima", 10)]

/-- The "numero N" pattern `\b(?:numero|n\.?|n°|nº)\s*(\d+)\b`: the first
adjacent token pair (prefix word, all-digit number). -/
def findNumeroPair : Text → Option Nat
  | w :: n :: rest =>
    if w ∈ (["numero", "n", "n.", "n°", "nº"] : List String) then
      match parseNatDigits n with
      | some k => some k
      | none => findNumeroPair (n :: rest)
    else findNumeroPair (n :: rest)
  | _ => none

/-- The leftmost all-digit token (`re.search(r"\b(\d+)\b")`). -/
def firstBareNumber (t : Text) : Option Nat :=
  t.findSome? (fun tok => parseNatDigits tok)

/-- `IntentClassifier._extract_option_index`: the first in-range ordinal in
`ordinal_map` order, else an in-range "numero N", else the leftmost bare
integer provided it is in range. -/
def _extract_option_index (t : Text) (options_count : Nat) : Option Nat :=
  if options_count = 0 then none
  else match ordinal_map.find?
      (fun p => containsPhrase t [p.1] && decide (1 ≤ p.2 ∧ p.2 ≤ options_count)) with
  | some p => some p.2
  | none =>
    match findNumeroPair t with
    | some idx =>
      if 1 ≤ idx ∧ idx ≤ options_count then some idx
      else match firstBareNumber t with
      | some idx2 => if 1 ≤ idx2 ∧ idx2 ≤ options_count then some idx2 else none
      | none => none
    | none =>
      match firstBareNumber t with
      | some idx => if 1 ≤ idx ∧ idx ≤ options_count then some idx else none
      | none => none

/-- Cancellation phrases of the pre-check regex
`\b(no|niente|annulla|non voglio|lascia stare)\b`. -/
def cancel_phrases : List (List String) :=
  [["no"], ["niente"], ["annulla"], ["non", "voglio"], ["lascia", "stare"]]

/-- Whether the pre-check cancellation regex fires on the message. -/
def hasCancelPhrase (t : Text) : Bool :=
  cancel_phrases.any (fun p => containsPhrase t p)

/-- Outcome of the deterministic part of `match_option`: either a result
produced with no LLM call, or fall-through to the LLM stage. -/
inductive PreOutcome where
  | result (r : MatchResult)
  | needLLM
  deriving DecidableEq, Repr

/-- The deterministic prefix of `IntentClassifier.match_option`: empty
options short-circuit to "unclear"; then the cancellation regex; then
`_extract_option_index`, whose hit is returned as a "select" only when the
option's id is truthy — otherwise control falls through to the LLM call. -/
def match_option_pre (msg : Text) (options : List OptionItem) : PreOutcome :=
  if options = [] then .result ⟨none, "unclear"⟩
  else if hasCancelPhrase msg then .result ⟨none, "cancel"⟩
  else match _extract_option_index msg options.length with
  | some index =>
    let selected_id := (options.getD (index - 1) ⟨"", ""⟩).id
    if selected_id ≠ "" then .result ⟨some selected_id, "select"⟩ else .needLLM
  | none => .needLLM

/-- `IntentClassifier.match_option`.  The post-LLM branch (JSON parse,
normalisation of spurious ids, fuzzy label match, lines 381-421) is
abstracted by the `resp` parameter: `.ok r` is the `MatchResult` that
branch produces on a completed call, `.error ()` any exception raised by
the call or its processing, answered by the documented default. -/
def match_option (msg : Text) (options : List OptionItem)
    (resp : Except Unit MatchResult) : MatchResult :=
  match match_option_pre msg options with
  | .result r => r
  | .needLLM =>
    match resp with
    | .error _ => ⟨none, "unclear"⟩
    | .ok r => r

-- =========================================================================
-- app/llm/intent_classifier.py — classify_need / classify_with_tools /
-- get_conversational_response
-- =========================================================================

/-- The fields `classify_need` reads off the parsed JSON (`result.get`):
`need`/`subcategory` are `none` when the key is absent or JSON-null,
`confidence` is the already-converted float (a failing `float(...)`
conversion is an exception of the surrounding `try`). -/
structure NeedParse where
  need : Option String
  confidence : ℚ
  subcategory : Option String
  deriving DecidableEq, Repr

/-- `IntentClassifier.classify_need`: on any exception the documented
default `ClassifyResult(need=None, confidence=0.0, subcategory=None)`;
otherwise the literal "null" is normalised away and truthy values are
sanitised by the cleaners. -/
def classify_need (resp : Except Unit NeedParse) : ClassifyResult :=
  match resp with
  | .error _ => ⟨none, 0, none⟩
  | .ok p =>
    let need0 : Option String := match p.need with
      | some s => if s = "null" then none else some s
      | none => none
    let need : Option String := match need0 with
      | some s => if s ≠ "" then _clean_need_value s else some s
      | none => none
    let sub0 : Option String := match p.subcategory with
      | some s => if s = "null" then none else some s
      | none => none
    let subcategory : Option String := match sub0 with
      | some s => if s ≠ "" then _clean_subcategory_value s else some s
      | none => none
    ⟨need, p.confidence, subcategory⟩

/-- The fields `classify_with_tools` reads off the extracted JSON object:
`tool_id = data.get("tool_id")`, `params = data.get("params", {})`,
`confidence = data.get("confidence", 0.8)` with its default resolved. -/
structure ToolParse where
  tool_id : Option String
  params : Option (List (String × String))
  confidence : ℚ
  deriving DecidableEq, Repr

/-- `IntentClassifier.classify_with_tools`: `.error ()` is any exception
(answered by `ToolClassifyResult.none()`); `.ok none` is a response with no
JSON object; `.ok (some d)` the parsed data, accepted only when `tool_id`
is truthy and not the sentinel "none". -/
def classify_with_tools (resp : Except Unit (Option ToolParse)) : ToolClassifyResult :=
  match resp with
  | .error _ => .noneResult
  | .ok none => .noneResult
  | .ok (some d) =>
    match d.tool_id with
    | some tid =>
      if tid ≠ "" ∧ tid ≠ "none" then ⟨some tid, d.params, d.confidence⟩
      else .noneResult
    | none => .noneResult

/-- `IntentClassifier.get_conversational_response`: the stripped LLM text,
or the fixed canned string on any exception. -/
def get_conversational_response (resp : Except Unit String) : String :=
  match resp with
  | .error _ =>
    "Come posso aiutarti? Dimmi se hai fame, sete, o se vuoi visitare qualche posto!"
  | .ok s => s.trim

-- =========================================================================
-- app/schemas.py — session state and commands
-- =========================================================================

/-- `SessionMode` enum. -/
inductive SessionMode where
  | pre_ride
  | normal
  deriving DecidableEq, Repr

/-- The outbound command objects relevant to the modelled tools
(`commands` entries of a `ToolResult`). -/
inductive Command where
  | SET_VOLUME (volume : Int)
  | PLAY_MUSIC (genre url : String)
  | STOP_MUSIC
  | PAUSE_MUSIC
  | RESUME_MUSIC
  | REROUTE_TO (poi_id : Option String) (name : Option String) (id_unity : Option Nat)
  deriving DecidableEq, Repr

/-- `SessionState` (`app/schemas.py`), restricted to the fields the
modelled operations read or write; the remaining fields (history, taxi
coordinates, ride bookkeeping strings) are untouched by every claim. -/
structure SessionState where
  session_id : String
  user_id : Option String := none
  pending_question : Option String := none
  last_poi_suggestions : List String := []
  last_ui_options : List OptionItem := []
  mode : SessionMode := .normal
  music_playing : Bool := false
  music_genre : Option String := none
  music_paused : Bool := false
  music_volume : Int := 5
  is_ride_active : Bool := false
  driving_policy : String := "Sport"
  deriving DecidableEq, Repr

-- =========================================================================
-- app/session_store.py — volume operations
-- =========================================================================

/-- `SessionStore.set_volume`: clamp to [1,10], store, and return the
effective volume. -/
def set_volume (s : SessionState) (volume : Int) : SessionState × Int :=
  let v := max 1 (min 10 volume)
  ({ s with music_volume := v }, v)

/-- `SessionStore.adjust_volume`: clamp the adjusted volume to [1,10],
store, and return the effective volume. -/
def adjust_volume (s : SessionState) (delta : Int) : SessionState × Int :=
  let v := max 1 (min 10 (s.music_volume + delta))
  ({ s with music_volume := v }, v)

-- =========================================================================
-- app/tools/music_tools.py — volume tools
-- =========================================================================

/-- `ToolResult` (message, UI options, commands). -/
structure ToolResultM where
  message : String
  ui_options : List OptionItem
  commands : List Command
  deriving DecidableEq, Repr

/-- `VolumeUpTool.execute`: adjust by +2 and emit the post-clamp value. -/
def volume_up_execute (s : SessionState) : SessionState × ToolResultM :=
  let r := adjust_volume s 2
  (r.1, ⟨"🔊 Volume alzato a " ++ toString r.2 ++ "/10", [], [.SET_VOLUME r.2]⟩)

/-- `VolumeDownTool.execute`: adjust by -2 and emit the post-clamp value. -/
def volume_down_execute (s : SessionState) : SessionState × ToolResultM :=
  let r := adjust_volume s (-2)
  (r.1, ⟨"🔉 Volume abbassato a " ++ toString r.2 ++ "/10", [], [.SET_VOLUME r.2]⟩)

/-- `VolumeSetTool.execute`: `ctx.params.get("volume", 5)` then
`set_volume`, emitting the post-clamp value. -/
def volume_set_execute (s : SessionState) (volumeParam : Option Int) :
    SessionState × ToolResultM :=
  let r := set_volume s (volumeParam.getD 5)
  (r.1, ⟨"🔊 Volume impostato a " ++ toString r.2 ++ "/10", [], [.SET_VOLUME r.2]⟩)

-- =========================================================================
-- app/tools/taxi_tools.py — driving-policy tool
-- =========================================================================

/-- `POLICY_KEYWORDS`, in insertion order. -/
def POLICY_KEYWORDS : List (String × List String) :=
  [("sport", ["fretta", "urgente", "urgenza", "veloce", "sbrigati", "corri", "rapido",
              "di fretta", "ho fretta", "è urgente", "sbrigarmi", "presto", "velocemente",
              "sport", "sportiva", "modalità sport"]),
   ("comfort", ["relax", "tranquillo", "calma", "comodo", "comfort", "confortevole",
                "senza fretta", "con calma", "piano", "lentamente", "rilassato",
                "modalità comfort", "comfortevole"]),
   ("eco", ["ecologico", "eco", "risparmio", "ecosostenibile", "verde", "ambiente",
            "risparmiare", "economico", "modalità eco", "green"])]

/-- `detect_policy_from_text`: the first policy (in insertion order) one of
whose keywords occurs as a substring of the lowercased text, capitalized. -/
def detect_policy_from_text (t : Text) : Option String :=
  (POLICY_KEYWORDS.find? (fun pk => pk.2.any (fun kw => containsSubstr t kw))).map
    (fun pk => pyCapitalize pk.1)

/-- Which reply branch `ChangeDrivingPolicyTool.execute` takes. -/
inductive PolicyOutcome where
  | blockedByConditions (reason : String)
  | askWhichPolicy
  | unrecognized (policy : String)
  | alreadyActive
  | requestSent (policy : String)
  | notConnected
  deriving DecidableEq, Repr

/-- `true` exactly on the branch that sends a `cambio_policy` message to
the downstream simulator. -/
def PolicyOutcome.sendsRequest : PolicyOutcome → Bool
  | .requestSent _ => true
  | _ => false

/-- Result of `ChangeDrivingPolicyTool.execute`: the reply branch, the
emitted `commands` list, and the session state after the call. -/
structure PolicyExecOut where
  outcome : PolicyOutcome
  commands : List Command
  session : SessionState
  deriving Repr

/-- `ChangeDrivingPolicyTool.execute`.  `conditions` models the user
condition check: `.ok (some reason)` is a forcing override (refusal),
`.ok none` no override, `.error ()` an exception of the check (logged and
ignored).  Then the requested policy — the truthy `params["policy"]` or
else `detect_policy_from_text(message)` — is capitalized, validated
against {Sport, Comfort, Eco}, compared case-insensitively to the current
`driving_policy`, and finally sent to the simulator if connected.  No
branch modifies the session. -/
def change_driving_policy (conditions : Except Unit (Option String))
    (paramPolicy : Option String) (message : Text)
    (session : SessionState) (unityConnected : Bool) : PolicyExecOut :=
  match conditions with
  | .ok (some reason) => ⟨.blockedByConditions reason, [], session⟩
  | _ =>
    let np0 : Option String := match paramPolicy with
      | some p => if p = "" then detect_policy_from_text message else some p
      | none => detect_policy_from_text message
    match np0 with
    | none => ⟨.askWhichPolicy, [], session⟩
    | some p0 =>
      let new_policy := pyCapitalize p0
      if new_policy ∉ (["Sport", "Comfort", "Eco"] : List String) then
        ⟨.unrecognized new_policy, [], session⟩
      else if pyLower session.driving_policy = pyLower new_policy then
        ⟨.alreadyActive, [], session⟩
      else if unityConnected then ⟨.requestSent new_policy, [], session⟩
      else ⟨.notConnected, [], session⟩

-- =========================================================================
-- app/main.py — _process_side_effects (REROUTE_TO command)
-- =========================================================================

/-- The payload of a `REROUTE_TO` command as read by
`_process_side_effects` (`poi_id`, `name`, `id_unity`). -/
structure ReroutePayload where
  poi_id : Option String
  name : Option String
  id_unity : Option Nat
  deriving DecidableEq, Repr

/-- Fate of one `REROUTE_TO` command in `_process_side_effects`. -/
inductive RerouteResult where
  | droppedNoRide
  | droppedDisconnected
  | forwarded (poi_id : Option String) (name : Option String) (id_unity : Option Nat)
  deriving DecidableEq, Repr

/-- Processing of one `REROUTE_TO` command (`_process_side_effects`,
`app/main.py` lines 737-781).  `repoIdUnity` models the recovery lookup
`neo4j_repo.get_poi_by_id(poi_id)`: `.ok (some v)` a POI carrying
`id_unity = v`, `.ok none` a missing POI or one without the key, and
`.error ()` an exception of the lookup (logged, recovery abandoned).  The
second component counts repository lookups performed.  Note that after a
failed recovery the code logs an error and still builds and forwards the
Unity payload with a null `poi_id_unity`. -/
def process_reroute (rideActive : Bool) (payload : ReroutePayload)
    (repoIdUnity : Except Unit (Option Nat)) (unityConnected : Bool) :
    RerouteResult × Nat :=
  if !rideActive then (.droppedNoRide, 0)
  else
    let rec_ : Option Nat × Nat := match payload.id_unity with
      | some v => (some v, 0)
      | none =>
        match repoIdUnity with
        | .ok (some v) => (some v, 1)
        | .ok none => (none, 1)
        | .error _ => (none, 1)
    if unityConnected then (.forwarded payload.poi_id payload.name rec_.1, rec_.2)
    else (.droppedDisconnected, rec_.2)

-- =========================================================================
-- app/main.py — pipeline branch state updates (handle_user_message)
-- =========================================================================

/-- Session update of the simple-rejection branch (lines 845-857):
`update_session(last_poi_suggestions=[])` then `clear_pending_question`;
`last_ui_options` is not touched. -/
def simple_rejection_update (s : SessionState) : SessionState :=
  { s with last_poi_suggestions := [], pending_question := none }

/-- Session update of the option-matching select and cancel branches
(lines 940 and 949, and the identical pre-ride branches at 1181/1190):
`update_session(last_ui_options=[], last_poi_suggestions=[])`. -/
def option_match_clear_update (s : SessionState) : SessionState :=
  { s with last_ui_options := [], last_poi_suggestions := [] }

/-- Session update of the POI-selection select branch (line 1057):
`update_session(last_poi_suggestions=[])` only. -/
def poi_selection_select_update (s : SessionState) : SessionState :=
  { s with last_poi_suggestions := [] }

/-- Session update of the POI-selection cancel branch (line 1067):
`update_session(last_poi_suggestions=[])` only. -/
def poi_selection_cancel_update (s : SessionState) : SessionState :=
  { s with last_poi_suggestions := [] }

-- =========================================================================
-- app/main.py — confidence-gated dispatch (stages 6-9 in-ride, and the
-- pre-ride analogue)
-- =========================================================================

/-- Which stage of `handle_user_message` (from the tool-classification
stage on) handles the message. -/
inductive InRideStage where
  | toolExec
  | policyHeuristic
  | poiSelect
  | poiCancel
  | needHandled
  | conversational
  deriving DecidableEq, Repr

/-- Stages 6-9 of `handle_user_message` (lines 990-1112): the LLM tool
gate at confidence ≥ 0.7, the heuristic policy fallback (NORMAL mode
only), the POI-selection stage driven by a `match_option` result on the
active suggestions, the need gate at confidence ≥ 0.65, and the
conversational fallback.  `pm` is the `match_option` result of stage 7
(only consulted when suggestions are active). -/
def in_ride_dispatch (mode : SessionMode) (suggestions : List String)
    (tr : ToolClassifyResult) (msg : Text) (pm : MatchResult)
    (nr : ClassifyResult) : InRideStage :=
  if optTruthy tr.tool_id = true ∧ (7 : ℚ)/10 ≤ tr.confidence then .toolExec
  else if mode = .normal ∧ (detect_policy_from_text msg).isSome = true then
    .policyHeuristic
  else if suggestions ≠ [] ∧ pm.action = "select" ∧ optTruthy pm.selected_id = true then
    .poiSelect
  else if suggestions ≠ [] ∧ pm.action = "cancel" then .poiCancel
  else if optTruthy nr.need = true ∧ (13 : ℚ)/20 ≤ nr.confidence then .needHandled
  else .conversational

/-- Which stage of `handle_pre_ride_message` (from the tool-classification
stage on) handles the message. -/
inductive PreRideStage where
  | toolExec
  | needHandled
  | clarify
  deriving DecidableEq, Repr

/-- The tail of `handle_pre_ride_message` (lines 1204-1262): the tool gate
at confidence ≥ 0.6, the need gate at confidence ≥ 0.5, and the clarifying
prompt. -/
def pre_ride_dispatch (tr : ToolClassifyResult) (nr : ClassifyResult) : PreRideStage :=
  if optTruthy tr.tool_id = true ∧ (3 : ℚ)/5 ≤ tr.confidence then .toolExec
  else if optTruthy nr.need = true ∧ (1 : ℚ)/2 ≤ nr.confidence then .needHandled
  else .clarify

-- =========================================================================
-- Concrete states used in counterexamples and witnesses
-- =========================================================================

/-- A fresh session with the schema defaults (`driving_policy = "Sport"`,
volume 5, no pending choices). -/
def sampleSession : SessionState := { session_id := "s1" }

/-- A session in the middle of a choice: one active POI suggestion and one
pending UI option. -/
def sessionWithChoices : SessionState :=
  { session_id := "s1",
    last_poi_suggestions := ["POI_001"],
    last_ui_options := [⟨"poi:POI_001", "Pizzeria Bella Napoli"⟩] }

end TaxiBackend

namespace TaxiBackend

-- =========================================================================
-- Theorems
-- =========================================================================

/-- C3 (counterexample).  The claim says every selection/cancellation
branch — the simple-rejection branch included — leaves `last_ui_options`
and `last_poi_suggestions` both empty.  In the code the simple-rejection
branch (`app/main.py` lines 845-857) clears only `last_poi_suggestions`:
starting from a session with one pending UI option and one POI suggestion,
after the branch the suggestions are empty while the UI options are not. -/
theorem simple_rejection_leaves_ui_options :
    (simple_rejection_update sessionWithChoices).last_poi_suggestions = [] ∧
    (simple_rejection_update sessionWithChoices).last_ui_options =
      [⟨"poi:POI_001", "Pizzeria Bella Napoli"⟩] ∧
    (simple_rejection_update sessionWithChoices).last_ui_options ≠ [] := by
  refine ⟨rfl, rfl, ?_⟩
  simp [simple_rejection_update, sessionWithChoices]

/-- C3 (amended).  Only the option-matching select/cancel branches clear
`last_ui_options` and `last_poi_suggestions` together; the
simple-rejection branch and the POI-selection select/cancel branches clear
`last_poi_suggestions` only and leave `last_ui_options` unchanged. -/
theorem selection_branch_state_updates (s : SessionState) :
    (option_match_clear_update s).last_ui_options = [] ∧
    (option_match_clear_update s).last_poi_suggestions = [] ∧
    (simple_rejection_update s).last_poi_suggestions = [] ∧
    (simple_rejection_update s).last_ui_options = s.last_ui_options ∧
    (poi_selection_select_update s).last_poi_suggestions = [] ∧
    (poi_selection_select_update s).last_ui_options = s.last_ui_options ∧
    (poi_selection_cancel_update s).last_poi_suggestions = [] ∧
    (poi_selection_cancel_update s).last_ui_options = s.last_ui_options :=
  ⟨rfl, rfl, rfl, rfl, rfl, rfl, rfl, rfl⟩

/-- C5.  Volume boundary behaviour and command fidelity: `set_volume`
clamps 0 to 1 and 11 to 10, `adjust_volume` from 1 by -5 stays at 1, every
volume operation leaves `music_volume` in [1,10], and each of the three
volume tools emits exactly one `SET_VOLUME` command carrying the
post-clamp stored value. -/
theorem volume_clamping_and_command_fidelity (s : SessionState) (v : Int)
    (p : Option Int) :
    (set_volume s 0).2 = 1 ∧
    (set_volume s 11).2 = 10 ∧
    (s.music_volume = 1 → (adjust_volume s (-5)).2 = 1) ∧
    (1 ≤ (set_volume s v).1.music_volume ∧ (set_volume s v).1.music_volume ≤ 10) ∧
    (1 ≤ (adjust_volume s v).1.music_volume ∧ (adjust_volume s v).1.music_volume ≤ 10) ∧
    (volume_up_execute s).2.commands =
      [.SET_VOLUME ((volume_up_execute s).1.music_volume)] ∧
    (volume_down_execute s).2.commands =
      [.SET_VOLUME ((volume_down_execute s).1.music_volume)] ∧
    (volume_set_execute s p).2.commands =
      [.SET_VOLUME ((volume_set_execute s p).1.music_volume)] := by
  refine ⟨?_, ?_, ?_, ?_, ?_, rfl, rfl, rfl⟩
  · simp [set_volume]
  · simp [set_volume]
  · intro h; simp [adjust_volume, h]
  · constructor <;> simp [set_volume]
  · constructor <;> simp [adjust_volume]

/-- C5 (witness): the hypothesis of the `adjust_volume` conjunct holds at
a concrete session with volume 1. -/
theorem volume_clamping_witness :
    (adjust_volume { sampleSession with music_volume := 1 } (-5)).2 = 1 :=
  (volume_clamping_and_command_fidelity
    { sampleSession with music_volume := 1 } 0 none).2.2.1 rfl

/-- C9.  `_clean_need_value` maps "Shopping|null" to "Shopping", "Banana"
to `None`, and on every input returns either `None` or one of the
allow-listed need values. -/
theorem clean_need_allowlisted :
    _clean_need_value "Shopping|null" = some "Shopping" ∧
    _clean_need_value "Banana" = none ∧
    ∀ s : String, _clean_need_value s = none ∨
      ∃ v, _clean_need_value s = some v ∧ v ∈ valid_needs := by
  refine ⟨by decide, by decide, ?_⟩
  intro s
  unfold _clean_need_value
  split
  · next h => exact Or.inr ⟨s, rfl, h⟩
  · split
    · next v hv => exact Or.inr ⟨v, rfl, List.mem_of_find?_eq_some hv⟩
    · split
      · dsimp only
        split
        · next h => exact Or.inr ⟨_, rfl, h⟩
        · split
          · next v hv => exact Or.inr ⟨v, rfl, List.mem_of_find?_eq_some hv⟩
          · exact Or.inl rfl
      · exact Or.inl rfl

/-- C2 (counterexample).  The claim (and the spec) say a `REROUTE_TO`
whose `id_unity` recovery fails is dropped with an error log.  In the code
(`app/main.py` lines 747-781) the failure is only logged: with an active
ride, a connected simulator and a repository lookup that finds no
`id_unity`, the command is still forwarded to the simulator with a null
`poi_id_unity`, after exactly one lookup. -/
theorem reroute_forwarded_despite_failed_recovery :
    process_reroute true ⟨some "POI_001", some "Stadio", none⟩ (.ok none) true =
      (.forwarded (some "POI_001") (some "Stadio") none, 1) := by
  decide

/-- C2 (amended).  Reroute side-effect processing: with no active ride the
command is dropped before any lookup; a missing `id_unity` triggers
exactly one repository lookup (none otherwise); a disconnected simulator
drops the command with a warning and no exception; and when the simulator
is connected the command is always forwarded — with the recovered
identifier on successful recovery, and with a null identifier (after an
error log) when recovery fails. -/
theorem reroute_side_effect_processing (p : ReroutePayload)
    (repo : Except Unit (Option Nat)) (conn : Bool) :
    (process_reroute false p repo conn = (.droppedNoRide, 0)) ∧
    (p.id_unity = none → (process_reroute true p repo conn).2 = 1) ∧
    (∀ v, p.id_unity = some v → (process_reroute true p repo conn).2 = 0) ∧
    (conn = false → (process_reroute true p repo conn).1 = .droppedDisconnected) ∧
    (conn = true → p.id_unity = none → (repo = .ok none ∨ repo = .error ()) →
      (process_reroute true p repo conn).1 = .forwarded p.poi_id p.name none) ∧
    (∀ v, conn = true → p.id_unity = none → repo = .ok (some v) →
      (process_reroute true p repo conn).1 = .forwarded p.poi_id p.name (some v)) ∧
    (∀ v, conn = true → p.id_unity = some v →
      (process_reroute true p repo conn).1 = .forwarded p.poi_id p.name (some v)) := by
  refine ⟨rfl, ?_, ?_, ?_, ?_, ?_, ?_⟩
  · intro h; cases conn <;> simp [process_reroute, h] <;>
      rcases repo with _ | (_ | v) <;> rfl
  · intro v h; cases conn <;> simp [process_reroute, h]
  · intro h; subst h
    rcases hp : p.id_unity with _ | v <;> simp [process_reroute, hp]
  · intro hc h hrepo; subst hc
    rcases hrepo with h2 | h2 <;> simp [process_reroute, h, h2]
  · intro v hc h hrepo; subst hc; simp [process_reroute, h, hrepo]
  · intro v hc h; subst hc; simp [process_reroute, h]

/-- C2 (witness): successful recovery at a concrete input — one lookup,
forwarded with the recovered identifier. -/
theorem reroute_side_effect_witness :
    (process_reroute true ⟨some "POI_001", some "Stadio", none⟩ (.ok (some 7)) true).1 =
      .forwarded (some "POI_001") (some "Stadio") (some 7) :=
  (reroute_side_effect_processing ⟨some "POI_001", some "Stadio", none⟩
    (.ok (some 7)) true).2.2.2.2.2.1 7 rfl rfl rfl

/-- With no forcing user condition and a truthy `params["policy"]`, the
driving-policy tool reduces to its validation/compare/send tail. -/
lemma change_driving_policy_no_override (cond : Except Unit (Option String))
    (hcond : ∀ r, cond ≠ .ok (some r)) (p : String) (hpne : p ≠ "")
    (msg : Text) (sess : SessionState) (conn : Bool) :
    change_driving_policy cond (some p) msg sess conn =
      (if pyCapitalize p ∉ (["Sport", "Comfort", "Eco"] : List String) then
        ⟨.unrecognized (pyCapitalize p), [], sess⟩
      else if pyLower sess.driving_policy = pyLower (pyCapitalize p) then
        ⟨.alreadyActive, [], sess⟩
      else if conn then ⟨.requestSent (pyCapitalize p), [], sess⟩
      else ⟨.notConnected, [], sess⟩) := by
  rcases cond with e | (_ | r)
  · simp [change_driving_policy, hpne]
  · simp [change_driving_policy, hpne]
  · exact absurd rfl (hcond r)

/-- C8 (counterexample).  The claim says that whenever a different valid
policy is requested the tool sends an asynchronous policy-change request
downstream.  With the simulator disconnected no request is sent: the tool
answers with the not-connected reply instead (`app/tools/taxi_tools.py`
lines 199-205).  (The session is still left unchanged.) -/
theorem policy_change_not_sent_when_disconnected :
    (change_driving_policy (.ok none) (some "Eco") [] sampleSession false).outcome =
      .notConnected ∧
    PolicyOutcome.sendsRequest
      (change_driving_policy (.ok none) (some "Eco") [] sampleSession false).outcome =
      false ∧
    (change_driving_policy (.ok none) (some "Eco") [] sampleSession false).session =
      sampleSession :=
  ⟨by decide, by decide, rfl⟩

/-- C8 (amended).  The driving-policy tool never modifies the session (in
particular `driving_policy` changes only upon downstream confirmation,
outside this tool) and never emits commands.  When no user-condition
override applies and a truthy policy parameter normalises to a valid
policy: if it equals the current policy case-insensitively the tool
reports "already active"; otherwise it sends the policy-change request
downstream exactly when the simulator is connected, and reports a
not-connected error (sending nothing) when it is not. -/
theorem driving_policy_frame_effect (cond : Except Unit (Option String))
    (param : Option String) (msg : Text) (sess : SessionState) (conn : Bool) :
    (change_driving_policy cond param msg sess conn).session = sess ∧
    (change_driving_policy cond param msg sess conn).commands = [] ∧
    (∀ p, (∀ r, cond ≠ .ok (some r)) → param = some p → p ≠ "" →
      pyCapitalize p ∈ (["Sport", "Comfort", "Eco"] : List String) →
      ((pyLower sess.driving_policy = pyLower (pyCapitalize p) →
        (change_driving_policy cond param msg sess conn).outcome = .alreadyActive) ∧
       (pyLower sess.driving_policy ≠ pyLower (pyCapitalize p) →
        (change_driving_policy cond param msg sess conn).outcome =
          if conn then .requestSent (pyCapitalize p) else .notConnected))) := by
  refine ⟨?_, ?_, ?_⟩
  · unfold change_driving_policy
    split
    · rfl
    · dsimp only
      split
      · rfl
      · split
        · rfl
        · split
          · rfl
          · split <;> rfl
  · unfold change_driving_policy
    split
    · rfl
    · dsimp only
      split
      · rfl
      · split
        · rfl
        · split
          · rfl
          · split <;> rfl
  · intro p hcond hp hpne hvalid
    subst hp
    rw [change_driving_policy_no_override cond hcond p hpne msg sess conn,
      if_neg (not_not_intro hvalid)]
    constructor
    · intro heq; rw [if_pos heq]
    · intro hne; rw [if_neg hne]
      cases conn <;> simp

/-- C8 (witness): a connected simulator, no condition override, current
policy "Sport", requested "Eco" — the request is sent downstream. -/
theorem driving_policy_frame_effect_witness :
    (change_driving_policy (.ok none) (some "Eco") [] sampleSession true).outcome =
      .requestSent "Eco" := by
  have h := (driving_policy_frame_effect (.ok none) (some "Eco") [] sampleSession
    true).2.2 "Eco" (by intro r hr; simp at hr) rfl (by decide) (by decide)
  simpa using h.2 (by decide)

/-- C4 (counterexample).  The claim says a message containing a bare
integer n with 1 ≤ n ≤ N yields an immediate select with no LLM call.
`_extract_option_index` only inspects the *leftmost* number
(`re.search(r"\b(\d+)\b")`): for the message "99 2" with three options the
leftmost number 99 is out of range, the in-range 2 is never considered,
and `match_option` proceeds to the LLM stage. -/
theorem bare_number_out_of_range_goes_to_llm :
    match_option_pre ["99", "2"]
      [⟨"poi:POI_001", "A"⟩, ⟨"poi:POI_002", "B"⟩, ⟨"poi:POI_003", "C"⟩] = .needLLM ∧
    ("2" : String) ∈ (["99", "2"] : Text) ∧ parseNatDigits "2" = some 2 := by
  decide

/-- C4 (amended).  Deterministic pre-checks of `match_option`: an empty
options list always yields `{selected: absent, action: unclear}` with no
LLM call; for non-empty options a cancellation phrase yields an immediate
`cancel`, taking precedence over the number checks; otherwise, when
`_extract_option_index` — the first in-range ordinal word in the order
primo…decimo, else an in-range "numero N", else the *leftmost* bare
integer provided it is in range — produces an index whose option carries a
non-empty id, the result is an immediate `select` of that (1-based)
option; every extracted index lies in [1, N]; and an ordinal word whose
value is in range guarantees the extraction succeeds. -/
theorem match_option_prechecks (msg : Text) (opts : List OptionItem) :
    (match_option_pre msg [] = .result ⟨none, "unclear"⟩) ∧
    (opts ≠ [] → hasCancelPhrase msg = true →
      match_option_pre msg opts = .result ⟨none, "cancel"⟩) ∧
    (opts ≠ [] → hasCancelPhrase msg = false →
      ∀ n opt, _extract_option_index msg opts.length = some n →
        opts[n - 1]? = some opt → opt.id ≠ "" →
        match_option_pre msg opts = .result ⟨some opt.id, "select"⟩) ∧
    (∀ n, _extract_option_index msg opts.length = some n →
      1 ≤ n ∧ n ≤ opts.length) ∧
    (∀ p ∈ ordinal_map, containsPhrase msg [p.1] = true → 1 ≤ p.2 →
      p.2 ≤ opts.length → _extract_option_index msg opts.length ≠ none) := by
  refine ⟨?_, ?_, ?_, ?_, ?_⟩
  · rfl
  · intro hne hc
    unfold match_option_pre
    rw [if_neg hne, if_pos hc]
  · intro hne hc n opt hext hopt hid
    unfold match_option_pre
    rw [if_neg hne, if_neg (by simp [hc]), hext]
    dsimp only
    rw [List.getD_eq_getElem?_getD, hopt]
    rw [if_pos (by simpa using hid)]
    rfl
  · intro n hext
    unfold _extract_option_index at hext
    split at hext
    · cases hext
    · split at hext
      · next q hq =>
        have hpred := List.find?_some hq
        simp only [Bool.and_eq_true, decide_eq_true_eq] at hpred
        cases hext
        exact hpred.2
      · split at hext
        · split at hext
          · next h => cases hext; exact h
          · split at hext
            · split at hext
              · next h => cases hext; exact h
              · cases hext
            · cases hext
        · split at hext
          · split at hext
            · next h => cases hext; exact h
            · cases hext
          · cases hext
  · intro p hp hcont h1 hlen
    have hcount : ¬ opts.length = 0 := by omega
    unfold _extract_option_index
    rw [if_neg hcount]
    have hex : (ordinal_map.find? fun q =>
        containsPhrase msg [q.1] && decide (1 ≤ q.2 ∧ q.2 ≤ opts.length)).isSome := by
      refine List.find?_isSome.mpr ⟨p, hp, ?_⟩
      simp [hcont]
      omega
    rcases hfind : ordinal_map.find? fun q =>
        containsPhrase msg [q.1] && decide (1 ≤ q.2 ∧ q.2 ≤ opts.length) with _ | q
    · rw [hfind] at hex; cases hex
    · rw [hfind]; simp

/-- C4 (witness): the message "2" against three options with non-empty ids
selects the second option deterministically. -/
theorem match_option_prechecks_witness :
    match_option_pre ["2"]
      [⟨"poi:POI_001", "A"⟩, ⟨"poi:POI_002", "B"⟩, ⟨"poi:POI_003", "C"⟩] =
      .result ⟨some "poi:POI_002", "select"⟩ :=
  (match_option_prechecks ["2"]
    [⟨"poi:POI_001", "A"⟩, ⟨"poi:POI_002", "B"⟩, ⟨"poi:POI_003", "C"⟩]).2.2.1
    (by decide) (by decide) 2 ⟨"poi:POI_002", "B"⟩ (by decide) rfl (by decide)

/-- C6.  Simple-confirmation detection: (sufficiency) every non-empty
text assembled from confirmation-vocabulary entries, of at most 3 words,
with no negation and no action-verb substring, is flagged as a simple
confirmation; (necessity) the flag holds exactly when the text has at most
3 words, no negation, a whole-word confirmation match, and no action-verb
substring. -/
theorem simple_confirmation_vocabulary :
    (∀ es : List (List String), es ≠ [] →
      (∀ e ∈ es, e ∈ SIMPLE_CONFIRMATIONS) →
      es.flatten.length ≤ 3 →
      _detect_negation es.flatten = false →
      (∀ a ∈ action_indicators, containsSubstr es.flatten a = false) →
      (analyze_text es.flatten).is_simple_confirmation = true) ∧
    (∀ t : Text, (analyze_text t).is_simple_confirmation = true ↔
      (t.length ≤ 3 ∧ _detect_negation t = false ∧
       (∃ c ∈ SIMPLE_CONFIRMATIONS, containsPhrase t c = true) ∧
       (∀ a ∈ action_indicators, containsSubstr t a = false))) := by
  have hiff : ∀ t : Text, (analyze_text t).is_simple_confirmation = true ↔
      (t.length ≤ 3 ∧ _detect_negation t = false ∧
       (∃ c ∈ SIMPLE_CONFIRMATIONS, containsPhrase t c = true) ∧
       (∀ a ∈ action_indicators, containsSubstr t a = false)) := by
    intro t
    simp only [analyze_text, Bool.and_eq_true, Bool.not_eq_true', decide_eq_true_eq,
      List.any_eq_true]
    constructor
    · rintro ⟨⟨⟨hlen, hneg⟩, c, hc, hcp⟩, hact⟩
      refine ⟨hlen, hneg, ⟨c, hc, hcp⟩, ?_⟩
      intro a ha
      rcases h : containsSubstr t a with _ | _
      · rfl
      · exact absurd (by exact List.any_eq_true.mpr ⟨a, ha, h⟩) (by simp [hact])
    · rintro ⟨hlen, hneg, ⟨c, hc, hcp⟩, hact⟩
      refine ⟨⟨⟨hlen, hneg⟩, c, hc, hcp⟩, ?_⟩
      simp only [List.any_eq_false]
      intro a ha
      simp [hact a ha]
  refine ⟨?_, hiff⟩
  intro es hne hv hlen hneg hact
  rcases es with _ | ⟨e, es'⟩
  · exact absurd rfl hne
  refine (hiff _).mpr ⟨hlen, hneg, ⟨e, hv e (by simp), ?_⟩, hact⟩
  exact decide_eq_true ⟨[], es'.flatten, by simp⟩

/-- C6 (witness): the vocabulary entry "va bene" alone is flagged as a
simple confirmation. -/
theorem simple_confirmation_vocabulary_witness :
    (analyze_text ["va", "bene"]).is_simple_confirmation = true :=
  simple_confirmation_vocabulary.1 [["va", "bene"]] (by decide) (by decide)
    (by decide) (by decide) (by decide)

/-- C10 (implicit).  A text flagged as a simple confirmation is never
flagged as containing a negation, and has at most 3 words. -/
theorem simple_confirmation_excludes_negation (t : Text) :
    (analyze_text t).is_simple_confirmation = true →
    (analyze_text t).has_negation = false ∧ t.length ≤ 3 := by
  simp only [analyze_text, Bool.and_eq_true, Bool.not_eq_true', decide_eq_true_eq]
  rintro ⟨⟨⟨hlen, hneg⟩, _⟩, _⟩
  exact ⟨hneg, hlen⟩

/-- C10 (witness): the one-word confirmation "ok". -/
theorem simple_confirmation_excludes_negation_witness :
    (analyze_text ["ok"]).has_negation = false ∧ (["ok"] : Text).length ≤ 3 :=
  simple_confirmation_excludes_negation ["ok"] (by decide)

/-- C7.  Failure degradation of the classifier entry points: on any raised
exception (modelled by `.error ()`), `classify_need` returns the default
`⟨none, 0, none⟩`, `classify_with_tools` the canonical no-tool result,
`match_option` (whenever its deterministic pre-checks fall through to the
LLM, the only place an exception can arise) the `unclear` result, and
`get_conversational_response` the fixed canned string.  All four
embeddings are total functions: no exception reaches the caller. -/
theorem classifier_failure_defaults :
    classify_need (.error ()) = ⟨none, 0, none⟩ ∧
    classify_with_tools (.error ()) = .noneResult ∧
    (∀ msg opts, match_option_pre msg opts = .needLLM →
      match_option msg opts (.error ()) = ⟨none, "unclear"⟩) ∧
    get_conversational_response (.error ()) =
      "Come posso aiutarti? Dimmi se hai fame, sete, o se vuoi visitare qualche posto!" := by
  refine ⟨rfl, rfl, ?_, rfl⟩
  intro msg opts h
  unfold match_option
  rw [h]

/-- C7 (witness): a message that matches no deterministic pre-check, so
the failing LLM call is actually reached. -/
theorem classifier_failure_defaults_witness :
    match_option ["boh"] [⟨"poi:POI_001", "Pizzeria"⟩] (.error ()) =
      ⟨none, "unclear"⟩ :=
  classifier_failure_defaults.2.2.1 ["boh"] [⟨"poi:POI_001", "Pizzeria"⟩] (by decide)

/-- A truthy optional string is not `none`. -/
lemma optTruthy_ne_none {o : Option String} (h : optTruthy o = true) : o ≠ none := by
  cases o <;> simp_all [optTruthy]

/-- `classify_with_tools` returns a truthy `tool_id` exactly when it
returns any `tool_id` at all: an accepted id is never the empty string. -/
lemma classify_with_tools_tool_id_truthy (resp : Except Unit (Option ToolParse)) :
    optTruthy (classify_with_tools resp).tool_id = true ↔
      ∃ tid, (classify_with_tools resp).tool_id = some tid := by
  rcases resp with e | (_ | d)
  · simp [classify_with_tools, ToolClassifyResult.noneResult, optTruthy]
  · simp [classify_with_tools, ToolClassifyResult.noneResult, optTruthy]
  · rcases d with ⟨tid?, params, conf⟩
    rcases tid? with _ | tid
    · simp [classify_with_tools, ToolClassifyResult.noneResult, optTruthy]
    · by_cases hc : tid ≠ "" ∧ tid ≠ "none"
      · rw [show classify_with_tools (.ok (some ⟨some tid, params, conf⟩)) =
            ⟨some tid, params, conf⟩ from if_pos hc]
        simp [optTruthy, hc.1]
      · rw [show classify_with_tools (.ok (some ⟨some tid, params, conf⟩)) =
            .noneResult from if_neg hc]
        simp [ToolClassifyResult.noneResult, optTruthy]

/-- The in-ride tool gate, in terms of the raw guard of the source. -/
lemma in_ride_dispatch_toolExec_iff (mode : SessionMode) (sugg : List String)
    (tr : ToolClassifyResult) (msg : Text) (pm : MatchResult) (nr : ClassifyResult) :
    in_ride_dispatch mode sugg tr msg pm nr = .toolExec ↔
      (optTruthy tr.tool_id = true ∧ (7 : ℚ)/10 ≤ tr.confidence) := by
  unfold in_ride_dispatch
  split_ifs with h1 h2 h3 h4 h5 <;> simp_all

/-- The in-ride need stage fires only with a truthy need at confidence
≥ 0.65. -/
lemma in_ride_dispatch_needHandled (mode : SessionMode) (sugg : List String)
    (tr : ToolClassifyResult) (msg : Text) (pm : MatchResult) (nr : ClassifyResult) :
    in_ride_dispatch mode sugg tr msg pm nr = .needHandled →
      optTruthy nr.need = true ∧ (13 : ℚ)/20 ≤ nr.confidence := by
  unfold in_ride_dispatch
  split_ifs with h1 h2 h3 h4 h5 <;> simp_all

/-- The pre-ride tool gate, in terms of the raw guard of the source. -/
lemma pre_ride_dispatch_toolExec_iff (tr : ToolClassifyResult) (nr : ClassifyResult) :
    pre_ride_dispatch tr nr = .toolExec ↔
      (optTruthy tr.tool_id = true ∧ (3 : ℚ)/5 ≤ tr.confidence) := by
  unfold pre_ride_dispatch
  split_ifs with h1 h2 <;> simp_all

/-- The pre-ride need stage fires only with a truthy need at confidence
≥ 0.5. -/
lemma pre_ride_dispatch_needHandled (tr : ToolClassifyResult) (nr : ClassifyResult) :
    pre_ride_dispatch tr nr = .needHandled →
      optTruthy nr.need = true ∧ (1 : ℚ)/2 ≤ nr.confidence := by
  unfold pre_ride_dispatch
  split_ifs with h1 h2 <;> simp_all

/-- C1.  Confidence gating, for classifier results as actually produced by
`classify_with_tools` / `classify_need`: in-ride, the classified tool is
executed iff a tool id is present and the confidence is ≥ 0.70 (otherwise
the dispatch continues into the heuristic-policy, POI-selection,
need-classification and conversational stages), and the need stage fires
only with a need present at confidence ≥ 0.65; pre-ride the tool gate is
≥ 0.60 and the need gate ≥ 0.50. -/
theorem confidence_gating (mode : SessionMode) (sugg : List String)
    (resp : Except Unit (Option ToolParse)) (msg : Text) (pm : MatchResult)
    (nresp : Except Unit NeedParse) :
    (in_ride_dispatch mode sugg (classify_with_tools resp) msg pm
        (classify_need nresp) = .toolExec ↔
      ((∃ tid, (classify_with_tools resp).tool_id = some tid) ∧
        (7 : ℚ)/10 ≤ (classify_with_tools resp).confidence)) ∧
    (in_ride_dispatch mode sugg (classify_with_tools resp) msg pm
        (classify_need nresp) = .needHandled →
      (classify_need nresp).need ≠ none ∧
        (13 : ℚ)/20 ≤ (classify_need nresp).confidence) ∧
    (pre_ride_dispatch (classify_with_tools resp) (classify_need nresp) = .toolExec ↔
      ((∃ tid, (classify_with_tools resp).tool_id = some tid) ∧
        (3 : ℚ)/5 ≤ (classify_with_tools resp).confidence)) ∧
    (pre_ride_dispatch (classify_with_tools resp) (classify_need nresp) = .needHandled →
      (classify_need nresp).need ≠ none ∧
        (1 : ℚ)/2 ≤ (classify_need nresp).confidence) := by
  refine ⟨?_, ?_, ?_, ?_⟩
  · exact (in_ride_dispatch_toolExec_iff _ _ _ _ _ _).trans
      (and_congr_left' (classify_with_tools_tool_id_truthy resp))
  · intro h
    have h2 := in_ride_dispatch_needHandled _ _ _ _ _ _ h
    exact ⟨optTruthy_ne_none h2.1, h2.2⟩
  · exact (pre_ride_dispatch_toolExec_iff _ _).trans
      (and_congr_left' (classify_with_tools_tool_id_truthy resp))
  · intro h
    have h2 := pre_ride_dispatch_needHandled _ _ h
    exact ⟨optTruthy_ne_none h2.1, h2.2⟩

/-- C1 (witness): a classified tool "music_play" at confidence 0.75 is
executed in-ride. -/
theorem confidence_gating_witness :
    in_ride_dispatch .normal []
      (classify_with_tools (.ok (some ⟨some "music_play", none, 3/4⟩)))
      ["x"] ⟨none, "unclear"⟩ (classify_need (.error ())) = .toolExec := by
  have hcl : classify_with_tools (.ok (some ⟨some "music_play", none, 3/4⟩)) =
      ⟨some "music_play", none, 3/4⟩ := by
    simp [classify_with_tools]
  exact (confidence_gating .normal [] (.ok (some ⟨some "music_play", none, 3/4⟩))
    ["x"] ⟨none, "unclear"⟩ (.error ())).1.mpr
    ⟨⟨"music_play", by rw [hcl]⟩, by rw [hcl]; norm_num⟩

end TaxiBackend
